import Mathlib

set_option maxRecDepth 8000
set_option maxHeartbeats 1000000

/-!
Verification of the lead/booking intake backend (`src/app.py`).

The embedding models:
  * JSON-like values as delivered by `request.json` (`Json`);
  * Python `datetime` objects (`PyDateTime`) together with
    `datetime.fromisoformat` (CPython ≤ 3.10 grammar, the version the code
    targets given its `.replace('Z', '+00:00')` workaround) and
    `datetime.isoformat`;
  * the SQLAlchemy-backed record store (`Store`) — `db.session.flush`
    stages a row inside the open transaction without committing it, and an
    uncommitted transaction is rolled back at request teardown, so only
    `db.session.commit` changes the committed store;
  * the two intake handlers `contact` and `book`, the slot catalog and the
    route table, translated statement by statement from `src/app.py`.

Environment effects are passed explicitly: `now` is the value
`datetime.utcnow` produces for the request, `mailConfOk` / `mailAdminOk`
say whether the mail transport delivers the confirmation / admin message
(a `false` means `mail.send` raises, which the handler catches), and
`commitOk` says whether `db.session.commit` succeeds.
-/

/-- Values produced by `request.json`: JSON decoded into Python objects.
An `obj` holds the items of a decoded JSON object (keys unique). -/
inductive Json where
  | null
  | bool (b : Bool)
  | num (n : Int)
  | str (s : String)
  | arr (elems : List Json)
  | obj (kvs : List (String × Json))

/-- Key lookup in a JSON object (used to state facts about response bodies). -/
def Json.lookup (j : Json) (k : String) : Option Json :=
  match j with
  | .obj kvs => (kvs.find? (fun p => p.1 == k)).map (fun p => p.2)
  | _ => none

/-- Gregorian leap-year rule, as in Python's `datetime`. -/
def isLeap (y : Nat) : Bool :=
  (y % 4 == 0 && y % 100 != 0) || y % 400 == 0

/-- Days in a month, as validated by the `datetime` constructor. -/
def daysInMonth (y m : Nat) : Nat :=
  if m == 2 then (if isLeap y then 29 else 28)
  else if m == 4 || m == 6 || m == 9 || m == 11 then 30
  else 31

/-- A Python `datetime` value. `utcoffset` is the timezone offset east of
UTC in microseconds (`none` = naive datetime, as `datetime.utcnow`
returns). -/
structure PyDateTime where
  year : Nat
  month : Nat
  day : Nat
  hour : Nat
  minute : Nat
  second : Nat
  microsecond : Nat
  utcoffset : Option Int
  deriving DecidableEq

/-- Read exactly `n` decimal digits, accumulating their value onto `acc`. -/
def readDigits : Nat → Nat → List Char → Option (Nat × List Char)
  | 0, acc, cs => some (acc, cs)
  | _ + 1, _, [] => none
  | n + 1, acc, c :: cs =>
      if c.isDigit then readDigits n (acc * 10 + (c.toNat - 48)) cs else none

/-- Read as many decimal digits as available, returning value, count, rest. -/
def readMoreDigits : Nat → Nat → List Char → Nat × Nat × List Char
  | acc, cnt, [] => (acc, cnt, [])
  | acc, cnt, c :: cs =>
      if c.isDigit then readMoreDigits (acc * 10 + (c.toNat - 48)) (cnt + 1) cs
      else (acc, cnt, c :: cs)

/-- CPython's `parse_isoformat_date` (the C `_datetime` implementation the
interpreter actually runs) applied to the date portion: exactly the ten
characters `YYYY-MM-DD`, with a two-digit day — shorter inputs such as
`2024-03-2` are rejected. -/
def parseDatePart (cs : List Char) : Option (Nat × Nat × Nat) :=
  match readDigits 4 0 cs with
  | none => none
  | some (y, cs₁) =>
    match cs₁ with
    | '-' :: cs₂ =>
      match readDigits 2 0 cs₂ with
      | none => none
      | some (mo, cs₃) =>
        match cs₃ with
        | '-' :: cs₄ =>
          match cs₄ with
          | [d₁, d₂] =>
              if d₁.isDigit && d₂.isDigit then
                some (y, mo, (d₁.toNat - 48) * 10 + (d₂.toNat - 48))
              else none
          | _ => none
        | _ => none
    | _ => none

/-- CPython's `_parse_hh_mm_ss_ff`: `HH[:MM[:SS[.fff|.ffffff]]]`, returning
hour, minute, second, microsecond and the unconsumed rest (which for a
valid time string is empty or a timezone designator). -/
def parseHMSF (cs : List Char) : Option (Nat × Nat × Nat × Nat × List Char) :=
  match readDigits 2 0 cs with
  | none => none
  | some (h, cs₁) =>
    match cs₁ with
    | ':' :: cs₂ =>
      match readDigits 2 0 cs₂ with
      | none => none
      | some (mi, cs₃) =>
        match cs₃ with
        | ':' :: cs₄ =>
          match readDigits 2 0 cs₄ with
          | none => none
          | some (s, cs₅) =>
            match cs₅ with
            | '.' :: cs₆ =>
              match readMoreDigits 0 0 cs₆ with
              | (v, 3, cs₇) => some (h, mi, s, v * 1000, cs₇)
              | (v, 6, cs₇) => some (h, mi, s, v, cs₇)
              | _ => none
            | _ => some (h, mi, s, 0, cs₅)
        | _ => some (h, mi, 0, 0, cs₃)
    | _ => some (h, 0, 0, 0, cs₁)

/-- Magnitude of a timezone designator after its sign. CPython restricts
the designator to exactly `HH:MM`, `HH:MM:SS` or `HH:MM:SS.ffffff` — 5, 8
or 15 characters after the sign (the C implementation checks 6, 9 or 16
including it) — so `+05` or a three-digit offset fraction are rejected;
the offset must then be strictly less than 24 hours (the `timezone`
constructor's constraint — the individual minute/second components are
not range-checked). Returns the magnitude in microseconds. -/
def parseOffsetMag (rest : List Char) : Option Nat :=
  if rest.length == 5 || rest.length == 8 || rest.length == 15 then
    match parseHMSF rest with
    | none => none
    | some (h, mi, s, us, r) =>
      if r.isEmpty then
        let total : Nat := ((h * 60 + mi) * 60 + s) * 1000000 + us
        if total < 86400000000 then some total else none
      else none
  else none

/-- The timezone designator following the time: empty (naive), or `+`/`-`
followed by a designator accepted by `parseOffsetMag`. -/
def parseOffset (cs : List Char) : Option (Option Int) :=
  match cs with
  | [] => some none
  | '+' :: rest => (parseOffsetMag rest).map (fun t => some (Int.ofNat t))
  | '-' :: rest => (parseOffsetMag rest).map (fun t => some (-(Int.ofNat t)))
  | _ => none

/-- `datetime.fromisoformat` as the C `_datetime` module of CPython ≤ 3.10
implements it (the version the code targets, given its
`.replace('Z', '+00:00')` workaround): an exactly-ten-character
`YYYY-MM-DD` date, either alone or followed by one separator character
(any character) and a non-empty time with optional timezone — a bare
trailing separator such as `2024-03-25T` is rejected. Component bounds
are those enforced by the `datetime` constructor. Returns `none` where
CPython raises `ValueError`. (Modelling note: the numeric fields are read
as plain decimal digits, matching the fixed-width `parse_digits` of the C
implementation.) -/
def fromisoformatL (cs : List Char) : Option PyDateTime :=
  match parseDatePart (cs.take 10) with
  | none => none
  | some (y, mo, d) =>
    if !(1 ≤ y && y ≤ 9999 && 1 ≤ mo && mo ≤ 12 && 1 ≤ d && d ≤ daysInMonth y mo) then
      none
    else
      match cs.drop 10 with
      | [] => some ⟨y, mo, d, 0, 0, 0, 0, none⟩
      | [_] => none
      | _sep :: tstr =>
        match parseHMSF tstr with
        | none => none
        | some (h, mi, s, us, rest) =>
          if !(h ≤ 23 && mi ≤ 59 && s ≤ 59) then none
          else
            match parseOffset rest with
            | none => none
            | some off => some ⟨y, mo, d, h, mi, s, us, off⟩

/-- `datetime.fromisoformat` on a string. -/
def fromisoformat (s : String) : Option PyDateTime :=
  fromisoformatL s.toList

/-- Python's `str.replace('Z', '+00:00')`: every occurrence of the
single-character pattern `Z` is replaced. -/
def replaceZ : List Char → List Char
  | [] => []
  | c :: cs =>
      if c = 'Z' then '+' :: '0' :: '0' :: ':' :: '0' :: '0' :: replaceZ cs
      else c :: replaceZ cs

/-- Line 181 of `src/app.py`:
`datetime.fromisoformat(data['booking_date'].replace('Z', '+00:00'))`. -/
def parseBookingDate (s : String) : Option PyDateTime :=
  fromisoformatL (replaceZ s.toList)

/-- The `str(e)` text of the `ValueError` CPython raises when the ISO
grammar rejects a string: the argument — here the Z-normalized
booking-date input — in repr quotes. Component-range rejections (month
13, an offset of exactly 24 hours, ...) word their `ValueError`
differently; the model reports this grammar text for every parse
failure, and no theorem depends on which text it is. -/
def invalidIsoMsg (s : String) : String :=
  "Invalid isoformat string: '" ++ String.mk (replaceZ s.toList) ++ "'"

/-- Left-pad a number with zeros to the given width. -/
def padZeros (w n : Nat) : String :=
  String.mk (List.replicate (w - (toString n).length) '0') ++ toString n

/-- The `±HH:MM[:SS[.ffffff]]` suffix `datetime.isoformat` renders for an
aware datetime (empty for a naive one). -/
def offsetSuffix : Option Int → String
  | none => ""
  | some off =>
    let sign := if off < 0 then "-" else "+"
    let a := off.natAbs
    let totalSec := a / 1000000
    let hh := totalSec / 3600
    let mm := totalSec % 3600 / 60
    let ss := totalSec % 60
    let us := a % 1000000
    sign ++ padZeros 2 hh ++ ":" ++ padZeros 2 mm ++
      (if ss ≠ 0 || us ≠ 0 then
        ":" ++ padZeros 2 ss ++ (if us ≠ 0 then "." ++ padZeros 6 us else "")
      else "")

/-- `datetime.isoformat`. -/
def isoformat (d : PyDateTime) : String :=
  padZeros 4 d.year ++ "-" ++ padZeros 2 d.month ++ "-" ++ padZeros 2 d.day ++ "T" ++
  padZeros 2 d.hour ++ ":" ++ padZeros 2 d.minute ++ ":" ++ padZeros 2 d.second ++
  (if d.microsecond ≠ 0 then "." ++ padZeros 6 d.microsecond else "") ++
  offsetSuffix d.utcoffset

/-- Does the pattern occur at the head of the text? -/
def headMatches : List Char → List Char → Bool
  | [], _ => true
  | _ :: _, [] => false
  | a :: as, b :: bs => a == b && headMatches as bs

/-- Python `str` containment (`needle in haystack`). -/
def containsSubL (pat : List Char) : List Char → Bool
  | [] => pat.isEmpty
  | c :: cs => headMatches pat (c :: cs) || containsSubL pat cs

/-- Python's `k in data` for a decoded JSON value: key membership for a
dict, substring test for a string, element equality for a list, and a
`TypeError` (modelled as `Except.error` with the message text) for the
non-iterable types. -/
def pyIn (k : String) (j : Json) : Except String Bool :=
  match j with
  | .obj kvs => .ok (kvs.any (fun p => p.1 == k))
  | .str s => .ok (containsSubL k.toList s.toList)
  | .arr xs => .ok (xs.any (fun x => match x with | .str s => s == k | _ => false))
  | .null => .error "argument of type NoneType is not iterable"
  | .bool _ => .error "argument of type bool is not iterable"
  | .num _ => .error "argument of type int is not iterable"

/-- Python's `data[k]`: dict lookup (`KeyError` when absent), `TypeError`
for every other decoded JSON type. -/
def pyGetItem (j : Json) (k : String) : Except String Json :=
  match j with
  | .obj kvs =>
    match kvs.find? (fun p => p.1 == k) with
    | some p => .ok p.2
    | none => .error ("KeyError: " ++ k)
  | .str _ => .error "string indices must be integers"
  | .arr _ => .error "list indices must be integers or slices, not str"
  | .null => .error "NoneType object is not subscriptable"
  | .bool _ => .error "bool object is not subscriptable"
  | .num _ => .error "int object is not subscriptable"

/-- Python's `data.get(k, dflt)`: defined on dicts, an `AttributeError`
on every other decoded JSON type. -/
def pyGet (j : Json) (k : String) (dflt : Json) : Except String Json :=
  match j with
  | .obj kvs => .ok (((kvs.find? (fun p => p.1 == k)).map (fun p => p.2)).getD dflt)
  | _ => .error "object has no attribute get"

/-- A row of the `lead` table (`class Lead`, `src/app.py` lines 40–54).
Field values are the Python objects assigned by the handler. -/
structure Lead where
  id : Nat
  name : Json
  email : Json
  message : Json
  created_at : PyDateTime

/-- `Lead.to_dict` (`src/app.py` lines 47–54). -/
def Lead.to_dict (l : Lead) : Json :=
  Json.obj [("id", Json.num (Int.ofNat l.id)), ("name", l.name), ("email", l.email),
            ("message", l.message), ("created_at", Json.str (isoformat l.created_at))]

/-- A row of the `booking` table (`class Booking`, `src/app.py` lines 56–70). -/
structure Booking where
  id : Nat
  lead_id : Nat
  booking_date : PyDateTime
  status : String
  created_at : PyDateTime

/-- `Booking.to_dict` (`src/app.py` lines 63–70). -/
def Booking.to_dict (b : Booking) : Json :=
  Json.obj [("id", Json.num (Int.ofNat b.id)), ("lead_id", Json.num (Int.ofNat b.lead_id)),
            ("booking_date", Json.str (isoformat b.booking_date)),
            ("status", Json.str b.status),
            ("created_at", Json.str (isoformat b.created_at))]

/-- The committed contents of the record store. Primary keys are
auto-incremented and rows are never deleted, so the next id is one past
the row count. -/
structure Store where
  leads : List Lead
  bookings : List Booking

/-- A JSON HTTP response: body and status code, as produced by
`jsonify(...), code`. -/
structure HttpResp where
  body : Json
  status : Nat

/-- What a request leaves behind: the response, the committed store, and
the subjects of the emails that were actually delivered. -/
structure IntakeResult where
  resp : HttpResp
  store : Store
  sent : List String

/-- The 500 path `except Exception as e: return jsonify({'error': str(e)}), 500`.
The store is the one from before the request: nothing was committed, and
the session (including any flushed-but-uncommitted rows) is rolled back
at request teardown. -/
def err500 (st : Store) (e : String) : IntakeResult :=
  ⟨⟨Json.obj [("error", Json.str e)], 500⟩, st, []⟩

/-- The 400 path `return jsonify({'error': 'Missing required fields'}), 400`. -/
def badRequest (st : Store) : IntakeResult :=
  ⟨⟨Json.obj [("error", Json.str "Missing required fields")], 400⟩, st, []⟩

/-- Subject of `send_confirmation_email` (`src/app.py` line 75). -/
def confSubject : String := "Thank you for contacting Rami Marketing"

/-- Subject of `send_admin_notification` (`src/app.py` line 107). -/
def adminSubject : String := "New Lead/Booking Alert"

/-- The inner `try` around the two email sends: if the confirmation send
raises, the admin send is never attempted; either failure is caught and
only logged. -/
def sentEmails (mailConfOk mailAdminOk : Bool) : List String :=
  if mailConfOk then
    if mailAdminOk then [confSubject, adminSubject] else [confSubject]
  else []

/-- `POST /api/contact` (`src/app.py` lines 131–160). `body` is `none`
when `request.json` itself raises (no body / undecodable body). -/
def contact (body : Option Json) (st : Store) (now : PyDateTime)
    (mailConfOk mailAdminOk commitOk : Bool) : IntakeResult :=
  match body with
  | none => err500 st "Failed to decode JSON object"
  | some data =>
    match pyIn "name" data with
    | .error e => err500 st e
    | .ok false => badRequest st
    | .ok true =>
      match pyIn "email" data with
      | .error e => err500 st e
      | .ok false => badRequest st
      | .ok true =>
        match pyGetItem data "name" with
        | .error e => err500 st e
        | .ok nameV =>
          match pyGetItem data "email" with
          | .error e => err500 st e
          | .ok emailV =>
            match pyGet data "message" (Json.str "") with
            | .error e => err500 st e
            | .ok msgV =>
              if commitOk then
                let lead : Lead := ⟨st.leads.length + 1, nameV, emailV, msgV, now⟩
                ⟨⟨Json.obj [("message", Json.str "Contact form submitted successfully"),
                            ("lead", Lead.to_dict lead)], 201⟩,
                 ⟨st.leads ++ [lead], st.bookings⟩,
                 sentEmails mailConfOk mailAdminOk⟩
              else err500 st "database commit failed"

/-- `POST /api/book` (`src/app.py` lines 162–202). The `Lead` row is
constructed and flushed (id assigned) before the booking date is parsed;
the flush stages the row in the open transaction only, so on any
exception before `db.session.commit` the committed store is unchanged. -/
def book (body : Option Json) (st : Store) (now : PyDateTime)
    (mailConfOk mailAdminOk commitOk : Bool) : IntakeResult :=
  match body with
  | none => err500 st "Failed to decode JSON object"
  | some data =>
    match pyIn "name" data with
    | .error e => err500 st e
    | .ok false => badRequest st
    | .ok true =>
      match pyIn "email" data with
      | .error e => err500 st e
      | .ok false => badRequest st
      | .ok true =>
        match pyIn "booking_date" data with
        | .error e => err500 st e
        | .ok false => badRequest st
        | .ok true =>
          match pyGetItem data "name" with
          | .error e => err500 st e
          | .ok nameV =>
            match pyGetItem data "email" with
            | .error e => err500 st e
            | .ok emailV =>
              match pyGet data "message" (Json.str "") with
              | .error e => err500 st e
              | .ok msgV =>
                let lead : Lead := ⟨st.leads.length + 1, nameV, emailV, msgV, now⟩
                match pyGetItem data "booking_date" with
                | .error e => err500 st e
                | .ok rawDate =>
                  match rawDate with
                  | Json.str ds =>
                    match parseBookingDate ds with
                    | none => err500 st (invalidIsoMsg ds)
                    | some bd =>
                      if commitOk then
                        let booking : Booking :=
                          ⟨st.bookings.length + 1, lead.id, bd, "pending", now⟩
                        ⟨⟨Json.obj [("message", Json.str "Booking submitted successfully"),
                                    ("booking", Booking.to_dict booking)], 201⟩,
                         ⟨st.leads ++ [lead], st.bookings ++ [booking]⟩,
                         sentEmails mailConfOk mailAdminOk⟩
                      else err500 st "database commit failed"
                  | _ => err500 st "object has no attribute replace"

/-- The hardcoded slot list (`src/app.py` lines 208–221). -/
def availableSlots : Json :=
  Json.arr
    [Json.obj [("date", Json.str "2024-03-25"),
               ("slots", Json.arr [Json.str "10:00", Json.str "14:00", Json.str "16:00"])],
     Json.obj [("date", Json.str "2024-03-26"),
               ("slots", Json.arr [Json.str "09:00", Json.str "11:00", Json.str "15:00"])],
     Json.obj [("date", Json.str "2024-03-27"),
               ("slots", Json.arr [Json.str "13:00", Json.str "14:00", Json.str "17:00"])]]

/-- The routes registered by the `@app.route` decorators in `src/app.py`:
method and path of every registered view. -/
def routes : List (String × String) :=
  [("POST", "/api/contact"), ("POST", "/api/book"), ("GET", "/api/available-slots")]

/-- Flask's dispatch over the registered routes: a request that matches no
registered rule is answered by the framework's 404 error response. -/
def dispatch (method path : String) (body : Option Json) (st : Store) (now : PyDateTime)
    (mailConfOk mailAdminOk commitOk : Bool) : IntakeResult :=
  if method == "POST" && path == "/api/contact" then
    contact body st now mailConfOk mailAdminOk commitOk
  else if method == "POST" && path == "/api/book" then
    book body st now mailConfOk mailAdminOk commitOk
  else if method == "GET" && path == "/api/available-slots" then
    ⟨⟨availableSlots, 200⟩, st, []⟩
  else
    ⟨⟨Json.str "Not Found", 404⟩, st, []⟩

/-- The value `data.get('message', '')` yields on a dict. -/
def msgVal (kvs : List (String × Json)) : Json :=
  (((kvs.find? (fun p => p.1 == "message")).map (fun p => p.2)).getD (Json.str ""))

/-- The result record of a successful `POST /api/contact`. -/
def contactOkResult (st : Store) (now : PyDateTime) (mc ma : Bool) (nv ev mv : Json) :
    IntakeResult :=
  let lead : Lead := ⟨st.leads.length + 1, nv, ev, mv, now⟩
  ⟨⟨Json.obj [("message", Json.str "Contact form submitted successfully"),
              ("lead", Lead.to_dict lead)], 201⟩,
   ⟨st.leads ++ [lead], st.bookings⟩,
   sentEmails mc ma⟩

/-- The result record of a successful `POST /api/book`. -/
def bookOkResult (st : Store) (now : PyDateTime) (mc ma : Bool) (nv ev mv : Json)
    (bd : PyDateTime) : IntakeResult :=
  let lead : Lead := ⟨st.leads.length + 1, nv, ev, mv, now⟩
  let booking : Booking := ⟨st.bookings.length + 1, lead.id, bd, "pending", now⟩
  ⟨⟨Json.obj [("message", Json.str "Booking submitted successfully"),
              ("booking", Booking.to_dict booking)], 201⟩,
   ⟨st.leads ++ [lead], st.bookings ++ [booking]⟩,
   sentEmails mc ma⟩

/-- Evaluation of `contact` on a dict body carrying `name` and `email`,
with a successful commit. -/
theorem contact_eval_ok (kvs : List (String × Json)) (st : Store) (now : PyDateTime)
    (mc ma : Bool) (pn pe : String × Json)
    (hn : kvs.find? (fun p => p.1 == "name") = some pn)
    (he : kvs.find? (fun p => p.1 == "email") = some pe) :
    contact (some (Json.obj kvs)) st now mc ma true =
      contactOkResult st now mc ma pn.2 pe.2 (msgVal kvs) := by
  have hn' := List.find?_some (p := fun (p : String × Json) => p.1 == "name") hn
  have he' := List.find?_some (p := fun (p : String × Json) => p.1 == "email") he
  have han : kvs.any (fun p => p.1 == "name") = true :=
    List.any_eq_true.2 ⟨pn, List.mem_of_find?_eq_some hn, hn'⟩
  have hae : kvs.any (fun p => p.1 == "email") = true :=
    List.any_eq_true.2 ⟨pe, List.mem_of_find?_eq_some he, he'⟩
  simp [contact, pyIn, pyGetItem, pyGet, han, hae, hn, he, contactOkResult, msgVal]

/-- Every `contact` request either leaves the committed store untouched
and does not answer 201, or was a dict submission carrying `name` and
`email` whose commit succeeded. -/
theorem contact_cases (body : Option Json) (st : Store) (now : PyDateTime)
    (mc ma cOk : Bool) :
    ((contact body st now mc ma cOk).store = st ∧
      (contact body st now mc ma cOk).resp.status ≠ 201) ∨
    (∃ kvs pn pe, body = some (Json.obj kvs) ∧ cOk = true ∧
      kvs.find? (fun p => p.1 == "name") = some pn ∧
      kvs.find? (fun p => p.1 == "email") = some pe) := by
  match body with
  | none => exact Or.inl ⟨rfl, by simp [contact, err500]⟩
  | some (Json.null) => exact Or.inl ⟨rfl, by simp [contact, pyIn, err500]⟩
  | some (Json.bool b) => exact Or.inl ⟨rfl, by simp [contact, pyIn, err500]⟩
  | some (Json.num n) => exact Or.inl ⟨rfl, by simp [contact, pyIn, err500]⟩
  | some (Json.str s) =>
    left
    simp only [contact, pyIn, pyGetItem]
    cases containsSubL "name".toList s.toList with
    | false => exact ⟨rfl, by simp [badRequest]⟩
    | true =>
      cases containsSubL "email".toList s.toList with
      | false => exact ⟨rfl, by simp [badRequest]⟩
      | true => exact ⟨rfl, by simp [err500]⟩
  | some (Json.arr xs) =>
    left
    simp only [contact, pyIn, pyGetItem]
    cases xs.any (fun x => match x with | .str s => s == "name" | _ => false) with
    | false => exact ⟨rfl, by simp [badRequest]⟩
    | true =>
      cases xs.any (fun x => match x with | .str s => s == "email" | _ => false) with
      | false => exact ⟨rfl, by simp [badRequest]⟩
      | true => exact ⟨rfl, by simp [err500]⟩
  | some (Json.obj kvs) =>
    simp only [contact, pyIn, pyGetItem, pyGet]
    cases han : kvs.any (fun p => p.1 == "name") with
    | false => exact Or.inl ⟨rfl, by simp [badRequest]⟩
    | true =>
      cases hae : kvs.any (fun p => p.1 == "email") with
      | false => exact Or.inl ⟨rfl, by simp [badRequest]⟩
      | true =>
        cases hfn : kvs.find? (fun p => p.1 == "name") with
        | none => exact Or.inl ⟨rfl, by simp [err500]⟩
        | some pn =>
          cases hfe : kvs.find? (fun p => p.1 == "email") with
          | none => exact Or.inl ⟨rfl, by simp [err500]⟩
          | some pe =>
            cases cOk with
            | false => exact Or.inl ⟨rfl, by simp [err500]⟩
            | true => exact Or.inr ⟨kvs, pn, pe, rfl, rfl, hfn, hfe⟩

/-- Evaluation of `book` on a dict body carrying `name`, `email` and a
string `booking_date` that parses, with a successful commit. -/
theorem book_eval_ok (kvs : List (String × Json)) (st : Store) (now : PyDateTime)
    (mc ma : Bool) (pn pe pd : String × Json) (s : String) (bd : PyDateTime)
    (hn : kvs.find? (fun p => p.1 == "name") = some pn)
    (he : kvs.find? (fun p => p.1 == "email") = some pe)
    (hd : kvs.find? (fun p => p.1 == "booking_date") = some pd)
    (hds : pd.2 = Json.str s)
    (hbd : parseBookingDate s = some bd) :
    book (some (Json.obj kvs)) st now mc ma true =
      bookOkResult st now mc ma pn.2 pe.2 (msgVal kvs) bd := by
  have hn' := List.find?_some (p := fun (p : String × Json) => p.1 == "name") hn
  have he' := List.find?_some (p := fun (p : String × Json) => p.1 == "email") he
  have hd' := List.find?_some (p := fun (p : String × Json) => p.1 == "booking_date") hd
  have han : kvs.any (fun p => p.1 == "name") = true :=
    List.any_eq_true.2 ⟨pn, List.mem_of_find?_eq_some hn, hn'⟩
  have hae : kvs.any (fun p => p.1 == "email") = true :=
    List.any_eq_true.2 ⟨pe, List.mem_of_find?_eq_some he, he'⟩
  have had : kvs.any (fun p => p.1 == "booking_date") = true :=
    List.any_eq_true.2 ⟨pd, List.mem_of_find?_eq_some hd, hd'⟩
  simp [book, pyIn, pyGetItem, pyGet, han, hae, had, hn, he, hd, hds, hbd,
        bookOkResult, msgVal]

/-- Evaluation of `book` when the required keys are present but the
booking date string does not parse: the `ValueError` from
`datetime.fromisoformat` reaches the outer handler, which answers 500
(carrying the modelled `str(e)` text) with the original committed store
(the flushed `Lead` was never committed). -/
theorem book_eval_parse_fail (kvs : List (String × Json)) (st : Store) (now : PyDateTime)
    (mc ma cOk : Bool) (pn pe pd : String × Json) (s : String)
    (hn : kvs.find? (fun p => p.1 == "name") = some pn)
    (he : kvs.find? (fun p => p.1 == "email") = some pe)
    (hd : kvs.find? (fun p => p.1 == "booking_date") = some pd)
    (hds : pd.2 = Json.str s)
    (hbd : parseBookingDate s = none) :
    book (some (Json.obj kvs)) st now mc ma cOk = err500 st (invalidIsoMsg s) := by
  have hn' := List.find?_some (p := fun (p : String × Json) => p.1 == "name") hn
  have he' := List.find?_some (p := fun (p : String × Json) => p.1 == "email") he
  have hd' := List.find?_some (p := fun (p : String × Json) => p.1 == "booking_date") hd
  have han : kvs.any (fun p => p.1 == "name") = true :=
    List.any_eq_true.2 ⟨pn, List.mem_of_find?_eq_some hn, hn'⟩
  have hae : kvs.any (fun p => p.1 == "email") = true :=
    List.any_eq_true.2 ⟨pe, List.mem_of_find?_eq_some he, he'⟩
  have had : kvs.any (fun p => p.1 == "booking_date") = true :=
    List.any_eq_true.2 ⟨pd, List.mem_of_find?_eq_some hd, hd'⟩
  simp [book, pyIn, pyGetItem, pyGet, han, hae, had, hn, he, hd, hds, hbd]

/-- Every `book` request either leaves the committed store untouched and
does not answer 201, or was a dict submission carrying `name`, `email`
and a parseable string `booking_date` whose commit succeeded. -/
theorem book_cases (body : Option Json) (st : Store) (now : PyDateTime)
    (mc ma cOk : Bool) :
    ((book body st now mc ma cOk).store = st ∧
      (book body st now mc ma cOk).resp.status ≠ 201) ∨
    (∃ kvs pn pe pd s bd, body = some (Json.obj kvs) ∧ cOk = true ∧
      kvs.find? (fun p => p.1 == "name") = some pn ∧
      kvs.find? (fun p => p.1 == "email") = some pe ∧
      kvs.find? (fun p => p.1 == "booking_date") = some pd ∧
      pd.2 = Json.str s ∧
      parseBookingDate s = some bd) := by
  match body with
  | none => exact Or.inl ⟨rfl, by simp [book, err500]⟩
  | some (Json.null) => exact Or.inl ⟨rfl, by simp [book, pyIn, err500]⟩
  | some (Json.bool b) => exact Or.inl ⟨rfl, by simp [book, pyIn, err500]⟩
  | some (Json.num n) => exact Or.inl ⟨rfl, by simp [book, pyIn, err500]⟩
  | some (Json.str s) =>
    left
    simp only [book, pyIn, pyGetItem]
    cases containsSubL "name".toList s.toList with
    | false => exact ⟨rfl, by simp [badRequest]⟩
    | true =>
      cases containsSubL "email".toList s.toList with
      | false => exact ⟨rfl, by simp [badRequest]⟩
      | true =>
        cases containsSubL "booking_date".toList s.toList with
        | false => exact ⟨rfl, by simp [badRequest]⟩
        | true => exact ⟨rfl, by simp [err500]⟩
  | some (Json.arr xs) =>
    left
    simp only [book, pyIn, pyGetItem]
    cases xs.any (fun x => match x with | .str s => s == "name" | _ => false) with
    | false => exact ⟨rfl, by simp [badRequest]⟩
    | true =>
      cases xs.any (fun x => match x with | .str s => s == "email" | _ => false) with
      | false => exact ⟨rfl, by simp [badRequest]⟩
      | true =>
        cases xs.any (fun x => match x with | .str s => s == "booking_date" | _ => false) with
        | false => exact ⟨rfl, by simp [badRequest]⟩
        | true => exact ⟨rfl, by simp [err500]⟩
  | some (Json.obj kvs) =>
    cases han : kvs.any (fun p => p.1 == "name") with
    | false =>
      refine Or.inl ⟨?_, ?_⟩ <;> simp [book, pyIn, han, badRequest]
    | true =>
      cases hae : kvs.any (fun p => p.1 == "email") with
      | false =>
        refine Or.inl ⟨?_, ?_⟩ <;> simp [book, pyIn, han, hae, badRequest]
      | true =>
        cases had : kvs.any (fun p => p.1 == "booking_date") with
        | false =>
          refine Or.inl ⟨?_, ?_⟩ <;> simp [book, pyIn, han, hae, had, badRequest]
        | true =>
          cases hfn : kvs.find? (fun p => p.1 == "name") with
          | none =>
            refine Or.inl ⟨?_, ?_⟩ <;>
              simp [book, pyIn, pyGetItem, han, hae, had, hfn, err500]
          | some pn =>
            cases hfe : kvs.find? (fun p => p.1 == "email") with
            | none =>
              refine Or.inl ⟨?_, ?_⟩ <;>
                simp [book, pyIn, pyGetItem, han, hae, had, hfn, hfe, err500]
            | some pe =>
              cases hfd : kvs.find? (fun p => p.1 == "booking_date") with
              | none =>
                refine Or.inl ⟨?_, ?_⟩ <;>
                  simp [book, pyIn, pyGetItem, pyGet, han, hae, had, hfn, hfe, hfd, err500]
              | some pd =>
                obtain ⟨pk, pv⟩ := pd
                cases pv with
                | str s =>
                  cases hbd : parseBookingDate s with
                  | none =>
                    refine Or.inl ⟨?_, ?_⟩ <;>
                      simp [book, pyIn, pyGetItem, pyGet, han, hae, had, hfn, hfe, hfd,
                        hbd, err500]
                  | some bd =>
                    cases cOk with
                    | false =>
                      refine Or.inl ⟨?_, ?_⟩ <;>
                        simp [book, pyIn, pyGetItem, pyGet, han, hae, had, hfn, hfe, hfd,
                          hbd, err500]
                    | true =>
                      exact Or.inr ⟨kvs, pn, pe, (pk, Json.str s), s, bd, rfl, rfl,
                        hfn, hfe, hfd, rfl, hbd⟩
                | null =>
                  refine Or.inl ⟨?_, ?_⟩ <;>
                    simp [book, pyIn, pyGetItem, pyGet, han, hae, had, hfn, hfe, hfd, err500]
                | bool b =>
                  refine Or.inl ⟨?_, ?_⟩ <;>
                    simp [book, pyIn, pyGetItem, pyGet, han, hae, had, hfn, hfe, hfd, err500]
                | num n =>
                  refine Or.inl ⟨?_, ?_⟩ <;>
                    simp [book, pyIn, pyGetItem, pyGet, han, hae, had, hfn, hfe, hfd, err500]
                | arr ys =>
                  refine Or.inl ⟨?_, ?_⟩ <;>
                    simp [book, pyIn, pyGetItem, pyGet, han, hae, had, hfn, hfe, hfd, err500]
                | obj ks =>
                  refine Or.inl ⟨?_, ?_⟩ <;>
                    simp [book, pyIn, pyGetItem, pyGet, han, hae, had, hfn, hfe, hfd, err500]

/-- A fixed request time used by the concrete instantiations: a naive UTC
timestamp as `datetime.utcnow` returns. -/
def wNow : PyDateTime := ⟨2024, 1, 1, 12, 0, 0, 0, none⟩

/-- C7: parsing the booking-date input `"2024-03-25T10:00:00Z"` goes
through `'Z' → '+00:00'` normalization and yields exactly the value
parsed from `"2024-03-25T10:00:00+00:00"`: the same instant, an aware
datetime with a zero UTC offset. -/
theorem z_suffix_parses_like_explicit_utc_offset :
    parseBookingDate "2024-03-25T10:00:00Z" =
      parseBookingDate "2024-03-25T10:00:00+00:00" ∧
    parseBookingDate "2024-03-25T10:00:00Z" =
      some ⟨2024, 3, 25, 10, 0, 0, 0, some 0⟩ :=
  ⟨rfl, rfl⟩

/-- C2: a booking submission is all-or-nothing on the committed store:
either nothing is committed (in particular, a `Lead` staged by
`db.session.flush` whose `Booking` then fails — e.g. an unparseable
`booking_date` — is never committed), or exactly one `Lead` and one
`Booking` are committed together. -/
theorem book_commits_all_or_nothing (body : Option Json) (st : Store)
    (now : PyDateTime) (mc ma cOk : Bool) :
    ((book body st now mc ma cOk).store.leads = st.leads ∧
      (book body st now mc ma cOk).store.bookings = st.bookings) ∨
    (∃ l b, (book body st now mc ma cOk).store.leads = st.leads ++ [l] ∧
      (book body st now mc ma cOk).store.bookings = st.bookings ++ [b]) := by
  rcases book_cases body st now mc ma cOk with ⟨hst, _⟩ |
    ⟨kvs, pn, pe, pd, s, bd, hb, hc, hn, he, hd, hds, hbd⟩
  · exact Or.inl ⟨by rw [hst], by rw [hst]⟩
  · subst hb; subst hc
    rw [book_eval_ok kvs st now mc ma pn pe pd s bd hn he hd hds hbd]
    exact Or.inr ⟨⟨st.leads.length + 1, pn.2, pe.2, msgVal kvs, now⟩,
      ⟨st.bookings.length + 1, st.leads.length + 1, bd, "pending", now⟩, rfl, rfl⟩

/-- C1: every booking submission answered 201 committed exactly one
`Lead` and one `Booking`; the booking references the lead created in the
same request, and its status is `"pending"` — the handler never reads a
`status` key from the input, so this holds whatever the input carries. -/
theorem book_success_creates_lead_and_pending_booking
    (body : Option Json) (st : Store) (now : PyDateTime) (mc ma cOk : Bool)
    (h201 : (book body st now mc ma cOk).resp.status = 201) :
    ∃ l b,
      (book body st now mc ma cOk).store.leads = st.leads ++ [l] ∧
      (book body st now mc ma cOk).store.bookings = st.bookings ++ [b] ∧
      b.lead_id = l.id ∧ b.status = "pending" ∧
      Json.lookup (book body st now mc ma cOk).resp.body "booking" =
        some (Booking.to_dict b) := by
  rcases book_cases body st now mc ma cOk with ⟨_, hne⟩ |
    ⟨kvs, pn, pe, pd, s, bd, hb, hc, hn, he, hd, hds, hbd⟩
  · exact absurd h201 hne
  · subst hb; subst hc
    rw [book_eval_ok kvs st now mc ma pn pe pd s bd hn he hd hds hbd]
    exact ⟨⟨st.leads.length + 1, pn.2, pe.2, msgVal kvs, now⟩,
      ⟨st.bookings.length + 1, st.leads.length + 1, bd, "pending", now⟩,
      rfl, rfl, rfl, rfl, rfl⟩

/-- Concrete booking submission for the C1 instantiation — note it
supplies a `status` of `"confirmed"`, which the handler ignores. -/
def wBookBody : Json := Json.obj
  [("name", Json.str "Ann"), ("email", Json.str "ann@example.com"),
   ("booking_date", Json.str "2024-03-25T10:00:00Z"),
   ("status", Json.str "confirmed")]

/-- Witness for C1 at a concrete successful submission. -/
theorem book_success_creates_lead_and_pending_booking_inst :
    ∃ l b,
      (book (some wBookBody) ⟨[], []⟩ wNow true true true).store.leads = [] ++ [l] ∧
      (book (some wBookBody) ⟨[], []⟩ wNow true true true).store.bookings = [] ++ [b] ∧
      b.lead_id = l.id ∧ b.status = "pending" ∧
      Json.lookup (book (some wBookBody) ⟨[], []⟩ wNow true true true).resp.body "booking" =
        some (Booking.to_dict b) :=
  book_success_creates_lead_and_pending_booking (some wBookBody) ⟨[], []⟩ wNow
    true true true (by rfl)

/-- C3: a contact submission that is a mapping but lacks `name` or lacks
`email` is answered 400 with the validation error string, and the store
is untouched. -/
theorem contact_missing_field_rejected_unpersisted
    (kvs : List (String × Json)) (st : Store) (now : PyDateTime) (mc ma cOk : Bool)
    (h : (∀ p ∈ kvs, p.1 ≠ "name") ∨ (∀ p ∈ kvs, p.1 ≠ "email")) :
    (contact (some (Json.obj kvs)) st now mc ma cOk).resp.status = 400 ∧
    Json.lookup (contact (some (Json.obj kvs)) st now mc ma cOk).resp.body "error" =
      some (Json.str "Missing required fields") ∧
    (contact (some (Json.obj kvs)) st now mc ma cOk).store = st := by
  have hres : contact (some (Json.obj kvs)) st now mc ma cOk = badRequest st := by
    rcases h with h | h
    · have han : kvs.any (fun p => p.1 == "name") = false := by
        rw [List.any_eq_false]; intro x hx; simpa using h x hx
      simp [contact, pyIn, han, badRequest]
    · have hae : kvs.any (fun p => p.1 == "email") = false := by
        rw [List.any_eq_false]; intro x hx; simpa using h x hx
      cases han : kvs.any (fun p => p.1 == "name") with
      | false => simp [contact, pyIn, han, badRequest]
      | true => simp [contact, pyIn, han, hae, badRequest]
  rw [hres]
  exact ⟨rfl, rfl, rfl⟩

/-- Witness for C3: a submission carrying only `email`. -/
theorem contact_missing_field_rejected_unpersisted_inst :
    (contact (some (Json.obj [("email", Json.str "ann@example.com")]))
      ⟨[], []⟩ wNow true true true).resp.status = 400 ∧
    Json.lookup (contact (some (Json.obj [("email", Json.str "ann@example.com")]))
      ⟨[], []⟩ wNow true true true).resp.body "error" =
      some (Json.str "Missing required fields") ∧
    (contact (some (Json.obj [("email", Json.str "ann@example.com")]))
      ⟨[], []⟩ wNow true true true).store = ⟨[], []⟩ :=
  contact_missing_field_rejected_unpersisted [("email", Json.str "ann@example.com")]
    ⟨[], []⟩ wNow true true true (Or.inl (by simp))

/-- C4: every contact submission answered 201 committed exactly one
`Lead` (bookings untouched); the response carries the full `to_dict`
representation of that very row, whose `id` is the row's identifier; and
when the input mapping omits `message` the committed row's message is the
empty string. -/
theorem contact_success_single_lead_full_response
    (body : Option Json) (st : Store) (now : PyDateTime) (mc ma cOk : Bool)
    (h201 : (contact body st now mc ma cOk).resp.status = 201) :
    ∃ lead : Lead,
      (contact body st now mc ma cOk).store.leads = st.leads ++ [lead] ∧
      (contact body st now mc ma cOk).store.bookings = st.bookings ∧
      lead.id = st.leads.length + 1 ∧
      Json.lookup (contact body st now mc ma cOk).resp.body "lead" =
        some (Lead.to_dict lead) ∧
      Json.lookup (Lead.to_dict lead) "id" = some (Json.num (Int.ofNat lead.id)) ∧
      (∀ kvs, body = some (Json.obj kvs) → (∀ p ∈ kvs, p.1 ≠ "message") →
        lead.message = Json.str "") := by
  rcases contact_cases body st now mc ma cOk with ⟨_, hne⟩ | ⟨kvs, pn, pe, hb, hc, hn, he⟩
  · exact absurd h201 hne
  · subst hb; subst hc
    rw [contact_eval_ok kvs st now mc ma pn pe hn he]
    refine ⟨⟨st.leads.length + 1, pn.2, pe.2, msgVal kvs, now⟩, rfl, rfl, rfl, rfl, rfl, ?_⟩
    rintro kvs' hkv hnomsg
    injection hkv with hkv'
    injection hkv' with hkvs
    subst hkvs
    have hfm : kvs.find? (fun p => p.1 == "message") = none := by
      rw [List.find?_eq_none]; intro x hx; simpa using hnomsg x hx
    simp [msgVal, hfm]

/-- Concrete contact submission without a `message` key, for the C4
instantiation. -/
def wContactBody : Json :=
  Json.obj [("name", Json.str "Bob"), ("email", Json.str "bob@example.com")]

/-- Witness for C4 at a concrete successful submission. -/
theorem contact_success_single_lead_full_response_inst :
    ∃ lead : Lead,
      (contact (some wContactBody) ⟨[], []⟩ wNow true true true).store.leads = [] ++ [lead] ∧
      (contact (some wContactBody) ⟨[], []⟩ wNow true true true).store.bookings = [] ∧
      lead.id = ([] : List Lead).length + 1 ∧
      Json.lookup (contact (some wContactBody) ⟨[], []⟩ wNow true true true).resp.body "lead" =
        some (Lead.to_dict lead) ∧
      Json.lookup (Lead.to_dict lead) "id" = some (Json.num (Int.ofNat lead.id)) ∧
      (∀ kvs, some wContactBody = some (Json.obj kvs) → (∀ p ∈ kvs, p.1 ≠ "message") →
        lead.message = Json.str "") :=
  contact_success_single_lead_full_response (some wContactBody) ⟨[], []⟩ wNow
    true true true (by rfl)

/-- C6: once a submission has passed validation and been committed (it is
answered 201 when the transport is healthy), a mail transport that raises
on send changes neither the response nor the committed store — the
handler catches the exception after the commit and still returns 201. -/
theorem mail_failure_keeps_success_and_store
    (bodyC bodyB : Option Json) (stC stB : Store) (now : PyDateTime) (mc ma cOk : Bool) :
    ((contact bodyC stC now true true cOk).resp.status = 201 →
      (contact bodyC stC now mc ma cOk).resp = (contact bodyC stC now true true cOk).resp ∧
      (contact bodyC stC now mc ma cOk).store = (contact bodyC stC now true true cOk).store) ∧
    ((book bodyB stB now true true cOk).resp.status = 201 →
      (book bodyB stB now mc ma cOk).resp = (book bodyB stB now true true cOk).resp ∧
      (book bodyB stB now mc ma cOk).store = (book bodyB stB now true true cOk).store) := by
  constructor
  · intro h201
    rcases contact_cases bodyC stC now true true cOk with ⟨_, hne⟩ |
      ⟨kvs, pn, pe, hb, hc, hn, he⟩
    · exact absurd h201 hne
    · subst hb; subst hc
      rw [contact_eval_ok kvs stC now mc ma pn pe hn he,
          contact_eval_ok kvs stC now true true pn pe hn he]
      exact ⟨rfl, rfl⟩
  · intro h201
    rcases book_cases bodyB stB now true true cOk with ⟨_, hne⟩ |
      ⟨kvs, pn, pe, pd, s, bd, hb, hc, hn, he, hd, hds, hbd⟩
    · exact absurd h201 hne
    · subst hb; subst hc
      rw [book_eval_ok kvs stB now mc ma pn pe pd s bd hn he hd hds hbd,
          book_eval_ok kvs stB now true true pn pe pd s bd hn he hd hds hbd]
      exact ⟨rfl, rfl⟩

/-- Concrete contact submission for the C6 instantiation. -/
def wContactBody6 : Json :=
  Json.obj [("name", Json.str "Cara"), ("email", Json.str "cara@example.com"),
            ("message", Json.str "hello")]

/-- Concrete booking submission for the C6 instantiation. -/
def wBookBody6 : Json :=
  Json.obj [("name", Json.str "Dan"), ("email", Json.str "dan@example.com"),
            ("booking_date", Json.str "2024-03-26T09:00:00+00:00")]

/-- Witness for C6: a failing transport (both sends raise) leaves the
response and the committed store of the two concrete committed
submissions unchanged. -/
theorem mail_failure_keeps_success_and_store_inst :
    ((contact (some wContactBody6) ⟨[], []⟩ wNow false false true).resp =
      (contact (some wContactBody6) ⟨[], []⟩ wNow true true true).resp ∧
     (contact (some wContactBody6) ⟨[], []⟩ wNow false false true).store =
      (contact (some wContactBody6) ⟨[], []⟩ wNow true true true).store) ∧
    ((book (some wBookBody6) ⟨[], []⟩ wNow false false true).resp =
      (book (some wBookBody6) ⟨[], []⟩ wNow true true true).resp ∧
     (book (some wBookBody6) ⟨[], []⟩ wNow false false true).store =
      (book (some wBookBody6) ⟨[], []⟩ wNow true true true).store) :=
  ⟨(mail_failure_keeps_success_and_store (some wContactBody6) (some wBookBody6)
      ⟨[], []⟩ ⟨[], []⟩ wNow false false true).1 (by rfl),
   (mail_failure_keeps_success_and_store (some wContactBody6) (some wBookBody6)
      ⟨[], []⟩ ⟨[], []⟩ wNow false false true).2 (by rfl)⟩

/-- C10: a request whose decoded body is absent or not a mapping (so that
`k in data` raises a `TypeError`) is answered by the blanket handler:
500, an `error` string, and nothing persisted — for both endpoints. -/
theorem non_mapping_body_yields_500_no_persist
    (body : Option Json) (st : Store) (now : PyDateTime) (mc ma cOk : Bool)
    (h : body = none ∨ ∃ j e, body = some j ∧ pyIn "name" j = Except.error e) :
    ((contact body st now mc ma cOk).resp.status = 500 ∧
      (contact body st now mc ma cOk).store = st ∧
      ∃ e, Json.lookup (contact body st now mc ma cOk).resp.body "error" =
        some (Json.str e)) ∧
    ((book body st now mc ma cOk).resp.status = 500 ∧
      (book body st now mc ma cOk).store = st ∧
      ∃ e, Json.lookup (book body st now mc ma cOk).resp.body "error" =
        some (Json.str e)) := by
  rcases h with rfl | ⟨j, e, rfl, hj⟩
  · exact ⟨⟨rfl, rfl, "Failed to decode JSON object", rfl⟩,
      ⟨rfl, rfl, "Failed to decode JSON object", rfl⟩⟩
  · have hc : contact (some j) st now mc ma cOk = err500 st e := by
      simp [contact, hj]
    have hb : book (some j) st now mc ma cOk = err500 st e := by
      simp [book, hj]
    rw [hc, hb]
    exact ⟨⟨rfl, rfl, e, rfl⟩, ⟨rfl, rfl, e, rfl⟩⟩

/-- Witness for C10: a request whose body decodes to JSON `null`
(`request.json` gives `None`, and `'name' in None` raises). -/
theorem non_mapping_body_yields_500_no_persist_inst :
    ((contact (some Json.null) ⟨[], []⟩ wNow true true true).resp.status = 500 ∧
      (contact (some Json.null) ⟨[], []⟩ wNow true true true).store = ⟨[], []⟩ ∧
      ∃ e, Json.lookup (contact (some Json.null) ⟨[], []⟩ wNow true true true).resp.body
        "error" = some (Json.str e)) ∧
    ((book (some Json.null) ⟨[], []⟩ wNow true true true).resp.status = 500 ∧
      (book (some Json.null) ⟨[], []⟩ wNow true true true).store = ⟨[], []⟩ ∧
      ∃ e, Json.lookup (book (some Json.null) ⟨[], []⟩ wNow true true true).resp.body
        "error" = some (Json.str e)) :=
  non_mapping_body_yields_500_no_persist (some Json.null) ⟨[], []⟩ wNow true true true
    (Or.inr ⟨Json.null, "argument of type NoneType is not iterable", rfl, rfl⟩)

/-- Counterexample to C5 as stated: a booking submission whose
`booking_date` does not parse is answered 500 (the `ValueError` falls
into the blanket `except` path), not the claimed 400-equivalent
validation failure; nothing is persisted. -/
theorem book_bad_date_returns_500_not_400 :
    (book (some (Json.obj [("name", Json.str "Ann"),
        ("email", Json.str "ann@example.com"),
        ("booking_date", Json.str "tomorrow")]))
      ⟨[], []⟩ wNow true true true).resp.status = 500 ∧
    (book (some (Json.obj [("name", Json.str "Ann"),
        ("email", Json.str "ann@example.com"),
        ("booking_date", Json.str "tomorrow")]))
      ⟨[], []⟩ wNow true true true).resp.status ≠ 400 ∧
    (book (some (Json.obj [("name", Json.str "Ann"),
        ("email", Json.str "ann@example.com"),
        ("booking_date", Json.str "tomorrow")]))
      ⟨[], []⟩ wNow true true true).store.leads = [] ∧
    (book (some (Json.obj [("name", Json.str "Ann"),
        ("email", Json.str "ann@example.com"),
        ("booking_date", Json.str "tomorrow")]))
      ⟨[], []⟩ wNow true true true).store.bookings = [] :=
  ⟨rfl, by decide, rfl, rfl⟩

/-- C5 as amended: a booking submission whose `booking_date` string is
unparseable (after Z-normalization) fails with the INTERNAL_ERROR
(500-equivalent) path — a 500 response carrying an error string, not a
400 validation failure — and no record is persisted. -/
theorem book_bad_date_internal_error_no_persist
    (kvs : List (String × Json)) (st : Store) (now : PyDateTime) (mc ma cOk : Bool)
    (pn pe pd : String × Json) (s : String)
    (hn : kvs.find? (fun p => p.1 == "name") = some pn)
    (he : kvs.find? (fun p => p.1 == "email") = some pe)
    (hd : kvs.find? (fun p => p.1 == "booking_date") = some pd)
    (hds : pd.2 = Json.str s)
    (hbd : parseBookingDate s = none) :
    (book (some (Json.obj kvs)) st now mc ma cOk).resp.status = 500 ∧
    (book (some (Json.obj kvs)) st now mc ma cOk).store = st ∧
    ∃ e, Json.lookup (book (some (Json.obj kvs)) st now mc ma cOk).resp.body "error" =
      some (Json.str e) := by
  rw [book_eval_parse_fail kvs st now mc ma cOk pn pe pd s hn he hd hds hbd]
  exact ⟨rfl, rfl, invalidIsoMsg s, rfl⟩

/-- Witness for the amended C5 at a concrete unparseable date. -/
theorem book_bad_date_internal_error_no_persist_inst :
    (book (some (Json.obj [("name", Json.str "Zed"),
        ("email", Json.str "zed@example.com"),
        ("booking_date", Json.str "2024-13-45T99:99")]))
      ⟨[], []⟩ wNow true true true).resp.status = 500 ∧
    (book (some (Json.obj [("name", Json.str "Zed"),
        ("email", Json.str "zed@example.com"),
        ("booking_date", Json.str "2024-13-45T99:99")]))
      ⟨[], []⟩ wNow true true true).store = ⟨[], []⟩ ∧
    ∃ e, Json.lookup (book (some (Json.obj [("name", Json.str "Zed"),
        ("email", Json.str "zed@example.com"),
        ("booking_date", Json.str "2024-13-45T99:99")]))
      ⟨[], []⟩ wNow true true true).resp.body "error" = some (Json.str e) :=
  book_bad_date_internal_error_no_persist
    [("name", Json.str "Zed"), ("email", Json.str "zed@example.com"),
     ("booking_date", Json.str "2024-13-45T99:99")]
    ⟨[], []⟩ wNow true true true
    ("name", Json.str "Zed") ("email", Json.str "zed@example.com")
    ("booking_date", Json.str "2024-13-45T99:99") "2024-13-45T99:99"
    rfl rfl rfl rfl rfl

/-- Counterexample to C8 as stated: both intake endpoints validate only
key presence, so a submission whose `name` and `email` are the empty
string is accepted (201) and a `Lead` with empty name and email is
committed. -/
theorem empty_name_email_lead_committed :
    (contact (some (Json.obj [("name", Json.str ""), ("email", Json.str "")]))
      ⟨[], []⟩ wNow true true true).resp.status = 201 ∧
    (contact (some (Json.obj [("name", Json.str ""), ("email", Json.str "")]))
      ⟨[], []⟩ wNow true true true).store.leads =
      [⟨1, Json.str "", Json.str "", Json.str "", wNow⟩] :=
  ⟨rfl, rfl⟩

/-- C8 as amended: every committed `Lead` comes from a mapping submission
in which the `name` and `email` keys were present, and stores their
values verbatim — presence is enforced, but the values are not checked,
so they may be empty strings. -/
theorem success_requires_name_email_keys
    (bodyC bodyB : Option Json) (stC stB : Store) (now : PyDateTime)
    (mc ma cOk mc' ma' cOk' : Bool) :
    ((contact bodyC stC now mc ma cOk).resp.status = 201 →
      ∃ kvs pn pe lead, bodyC = some (Json.obj kvs) ∧
        kvs.find? (fun p => p.1 == "name") = some pn ∧
        kvs.find? (fun p => p.1 == "email") = some pe ∧
        (contact bodyC stC now mc ma cOk).store.leads = stC.leads ++ [lead] ∧
        lead.name = pn.2 ∧ lead.email = pe.2) ∧
    ((book bodyB stB now mc' ma' cOk').resp.status = 201 →
      ∃ kvs pn pe lead, bodyB = some (Json.obj kvs) ∧
        kvs.find? (fun p => p.1 == "name") = some pn ∧
        kvs.find? (fun p => p.1 == "email") = some pe ∧
        (book bodyB stB now mc' ma' cOk').store.leads = stB.leads ++ [lead] ∧
        lead.name = pn.2 ∧ lead.email = pe.2) := by
  constructor
  · intro h201
    rcases contact_cases bodyC stC now mc ma cOk with ⟨_, hne⟩ |
      ⟨kvs, pn, pe, hb, hc, hn, he⟩
    · exact absurd h201 hne
    · subst hb; subst hc
      rw [contact_eval_ok kvs stC now mc ma pn pe hn he]
      exact ⟨kvs, pn, pe, ⟨stC.leads.length + 1, pn.2, pe.2, msgVal kvs, now⟩,
        rfl, hn, he, rfl, rfl, rfl⟩
  · intro h201
    rcases book_cases bodyB stB now mc' ma' cOk' with ⟨_, hne⟩ |
      ⟨kvs, pn, pe, pd, s, bd, hb, hc, hn, he, hd, hds, hbd⟩
    · exact absurd h201 hne
    · subst hb; subst hc
      rw [book_eval_ok kvs stB now mc' ma' pn pe pd s bd hn he hd hds hbd]
      exact ⟨kvs, pn, pe, ⟨stB.leads.length + 1, pn.2, pe.2, msgVal kvs, now⟩,
        rfl, hn, he, rfl, rfl, rfl⟩

/-- Witness for the amended C8 at concrete successful submissions (whose
stored values are in fact empty strings). -/
theorem success_requires_name_email_keys_inst :
    (∃ kvs pn pe lead,
        (some (Json.obj [("name", Json.str ""), ("email", Json.str "e")]) :
          Option Json) = some (Json.obj kvs) ∧
        kvs.find? (fun p => p.1 == "name") = some pn ∧
        kvs.find? (fun p => p.1 == "email") = some pe ∧
        (contact (some (Json.obj [("name", Json.str ""), ("email", Json.str "e")]))
          ⟨[], []⟩ wNow true true true).store.leads = [] ++ [lead] ∧
        lead.name = pn.2 ∧ lead.email = pe.2) ∧
    (∃ kvs pn pe lead,
        (some (Json.obj [("name", Json.str "N"), ("email", Json.str ""),
          ("booking_date", Json.str "2024-03-27T13:00:00Z")]) :
          Option Json) = some (Json.obj kvs) ∧
        kvs.find? (fun p => p.1 == "name") = some pn ∧
        kvs.find? (fun p => p.1 == "email") = some pe ∧
        (book (some (Json.obj [("name", Json.str "N"), ("email", Json.str ""),
          ("booking_date", Json.str "2024-03-27T13:00:00Z")]))
          ⟨[], []⟩ wNow true true true).store.leads = [] ++ [lead] ∧
        lead.name = pn.2 ∧ lead.email = pe.2) :=
  ⟨(success_requires_name_email_keys
      (some (Json.obj [("name", Json.str ""), ("email", Json.str "e")]))
      (some (Json.obj [("name", Json.str "N"), ("email", Json.str ""),
        ("booking_date", Json.str "2024-03-27T13:00:00Z")]))
      ⟨[], []⟩ ⟨[], []⟩ wNow true true true true true true).1 (by rfl),
   (success_requires_name_email_keys
      (some (Json.obj [("name", Json.str ""), ("email", Json.str "e")]))
      (some (Json.obj [("name", Json.str "N"), ("email", Json.str ""),
        ("booking_date", Json.str "2024-03-27T13:00:00Z")]))
      ⟨[], []⟩ ⟨[], []⟩ wNow true true true true true true).2 (by rfl)⟩

/-- Counterexample to C9 as stated: the application registers no
`/health` route, so `GET /health` is answered by the framework's 404,
not 200. -/
theorem get_health_returns_404 :
    (dispatch "GET" "/health" none ⟨[], []⟩ wNow true true true).resp.status = 404 ∧
    (dispatch "GET" "/health" none ⟨[], []⟩ wNow true true true).resp.status ≠ 200 :=
  ⟨rfl, by decide⟩

/-- C9 as amended: no registered route serves `/health`; a request for
`/health`, with any method and any body, falls through to the 404
response and touches nothing. -/
theorem no_health_route_registered
    (method : String) (body : Option Json) (st : Store) (now : PyDateTime)
    (mc ma cOk : Bool) :
    routes.all (fun r => r.2 != "/health") = true ∧
    (dispatch method "/health" body st now mc ma cOk).resp.status = 404 ∧
    (dispatch method "/health" body st now mc ma cOk).store = st := by
  refine ⟨rfl, ?_, ?_⟩ <;> simp [dispatch]
